import Mathlib

/-!
# Shallow embedding of the GRI scoring and allocation core

This file embeds, over exact rational arithmetic, the functions of the
`gri` package that the verified properties below are about:

* `calculate_vwrs` and its per-stratum weights (`gri/variance_weighted.py`),
* `optimal_allocation` (Neyman allocation, same file),
* `calculate_gri` and `calculate_diversity_score` (`gri/calculator.py`),
* `generate_optimal_sample`, `calculate_max_diversity_score` and the
  simulation diversity threshold (`gri/simulation.py`),
* `simplify_benchmark` (`gri/benchmark_simplifier.py`).

Python floats are modelled as `ℚ`; Python dicts as insertion-ordered
association lists; the numpy global pseudorandom stream as an explicit
generator state threaded through the computation.
-/

namespace GRI

/-- Model of `np.sqrt` / `math.sqrt` on the rational model of floats.
`Rat.sqrt` is exact whenever the argument is the square of a rational,
which covers every square root actually evaluated in the concrete
statements below (`sqrt 0.25 = 0.5`, `sqrt (1/4) = 1/2`); no theorem in
this file depends on its value at non-squares. -/
def npSqrt (q : ℚ) : ℚ := Rat.sqrt q

/-- Model of `np.round` / Python `round`: round half to even
(banker's rounding), which both numpy and Python 3 use. -/
def npRound (x : ℚ) : ℤ :=
  if x - ⌊x⌋ = 1/2 then (if ⌊x⌋ % 2 = 0 then ⌊x⌋ else ⌊x⌋ + 1)
  else ⌊x + 1/2⌋

theorem npRound_3_5 : npRound (3/5) = 1 := by norm_num [npRound]
theorem npRound_7_5 : npRound (7/5) = 1 := by norm_num [npRound]
theorem npRound_21_10 : npRound (21/10) = 2 := by norm_num [npRound]
theorem npRound_7_2 : npRound (7/2) = 4 := by norm_num [npRound]
example : npRound (1/2) = 0 := by norm_num [npRound]
example : npRound (3/2) = 2 := by norm_num [npRound]

/-- Evaluation of the model square root at the Bernoulli-maximum
variance `0.25`, the only irrational-looking value the concrete
statements below need: `sqrt (1/4) = 1/2`. -/
theorem npSqrt_quarter : npSqrt (1/4) = 1/2 := by
  rw [npSqrt, show (1/4 : ℚ) = (1/2) * (1/2) by norm_num, Rat.sqrt_eq]
  norm_num

/-! ## `calculate_vwrs` (gri/variance_weighted.py lines 14-72) -/

/-- Standard error of a stratum: `sqrt(p (1-p) / n)` when `n > 0`,
else `1.0` (maximum uncertainty), as in lines 48-51. -/
def seStratum (p : ℚ) (n : ℤ) : ℚ :=
  if 0 < n then npSqrt (p * (1 - p) / (n : ℚ)) else 1

/-- Reliability factor of a stratum (lines 54-59): `1 - internal_var`
when the (truthy) variance dict has an entry for the stratum, else `1.0`. -/
def reliabilityFactor (variances : Option (List (String × ℚ))) (stratum : String) : ℚ :=
  match variances with
  | some vs =>
    match vs.lookup stratum with
    | some v => 1 - v
    | none => 1
  | none => 1

/-- The VWRS weight of one stratum (line 62):
`population_proportion * standard_error * reliability`.  Lookups with
default `0` model lines 39-41, which insert `0.0` / `0` for strata
missing from the sample dicts before reading them. -/
def vwrsWeight (sample_proportions : List (String × ℚ)) (sample_sizes : List (String × ℤ))
    (variances : Option (List (String × ℚ))) (stratum : String) (pi_i : ℚ) : ℚ :=
  let p_i := (sample_proportions.lookup stratum).getD 0
  let n_i := (sample_sizes.lookup stratum).getD 0
  pi_i * seStratum p_i n_i * reliabilityFactor variances stratum

/-- The accumulation loop of lines 38-65: returns
`(total_weighted_error, total_weight)`. -/
def vwrsTotals (sample_proportions population_proportions : List (String × ℚ))
    (sample_sizes : List (String × ℤ)) (variances : Option (List (String × ℚ))) : ℚ × ℚ :=
  population_proportions.foldl
    (fun acc r =>
      let p_i := (sample_proportions.lookup r.1).getD 0
      let w := vwrsWeight sample_proportions sample_sizes variances r.1 r.2
      (acc.1 + w * |p_i - r.2|, acc.2 + w))
    (0, 0)

/-- Embedding of `calculate_vwrs` (lines 14-72): `1 - normalized_error`, where the
error is normalised by the total weight when positive and is `1.0`
otherwise. -/
def calculate_vwrs (sample_proportions population_proportions : List (String × ℚ))
    (sample_sizes : List (String × ℤ)) (variances : Option (List (String × ℚ))) : ℚ :=
  1 - (if 0 < (vwrsTotals sample_proportions population_proportions sample_sizes variances).2
       then (vwrsTotals sample_proportions population_proportions sample_sizes variances).1
            / (vwrsTotals sample_proportions population_proportions sample_sizes variances).2
       else 1)

/-- Modelled from the spec's words (section 4.1), for comparison with the
code: reliability with a default internal variance of `0.25` for strata
absent from the variance mapping, i.e. default factor `1 - 1/4 = 3/4`. -/
def reliabilityFactorSpec (variances : Option (List (String × ℚ))) (stratum : String) : ℚ :=
  match variances with
  | some vs =>
    match vs.lookup stratum with
    | some v => 1 - v
    | none => 1 - 1/4
  | none => 1 - 1/4

/-- The VWRS stratum weight as the spec describes it (default reliability 3/4). -/
def vwrsWeightSpec (sample_proportions : List (String × ℚ)) (sample_sizes : List (String × ℤ))
    (variances : Option (List (String × ℚ))) (stratum : String) (pi_i : ℚ) : ℚ :=
  let p_i := (sample_proportions.lookup stratum).getD 0
  let n_i := (sample_sizes.lookup stratum).getD 0
  pi_i * seStratum p_i n_i * reliabilityFactorSpec variances stratum

/-- The VWRS accumulation using the spec's default reliability. -/
def vwrsTotalsSpec (sample_proportions population_proportions : List (String × ℚ))
    (sample_sizes : List (String × ℤ)) (variances : Option (List (String × ℚ))) : ℚ × ℚ :=
  population_proportions.foldl
    (fun acc r =>
      let p_i := (sample_proportions.lookup r.1).getD 0
      let w := vwrsWeightSpec sample_proportions sample_sizes variances r.1 r.2
      (acc.1 + w * |p_i - r.2|, acc.2 + w))
    (0, 0)

/-- Score `calculate_vwrs` as the spec describes it (default internal variance 0.25). -/
def calculate_vwrsSpec (sample_proportions population_proportions : List (String × ℚ))
    (sample_sizes : List (String × ℤ)) (variances : Option (List (String × ℚ))) : ℚ :=
  1 - (if 0 < (vwrsTotalsSpec sample_proportions population_proportions sample_sizes variances).2
       then (vwrsTotalsSpec sample_proportions population_proportions sample_sizes variances).1
            / (vwrsTotalsSpec sample_proportions population_proportions sample_sizes variances).2
       else 1)

/-! ## `optimal_allocation` (gri/variance_weighted.py lines 75-133) -/

/-- Variance used for a stratum by the allocator (lines 102-106):
the supplied value when the (truthy) variance dict has an entry,
else the Bernoulli maximum `0.25`. -/
def allocationVariance (variances : Option (List (String × ℚ))) (stratum : String) : ℚ :=
  match variances with
  | some vs =>
    match vs.lookup stratum with
    | some v => v
    | none => 1/4
  | none => 1/4

/-- Neyman allocation weights (lines 100-113): `pi_i * sqrt(var_i)` per stratum. -/
def allocationWeights (population_proportions : List (String × ℚ))
    (variances : Option (List (String × ℚ))) : List (String × ℚ) :=
  population_proportions.map fun sp => (sp.1, sp.2 * npSqrt (allocationVariance variances sp.1))

/-- The rounded raw allocations (lines 116-125):
`round(total * weight / total_weight)` when the total weight is positive, else `0`. -/
def rawAllocations (population_proportions : List (String × ℚ)) (total_sample_size : ℕ)
    (variances : Option (List (String × ℚ))) : List (String × ℤ) :=
  let ws := allocationWeights population_proportions variances
  let totalW := (ws.map Prod.snd).sum
  ws.map fun sw =>
    (sw.1, if 0 < totalW then npRound ((total_sample_size : ℚ) * (sw.2 / totalW)) else 0)

/-- Index of the first maximum of a list of integers — the stratum Python's
`max(allocations.keys(), key=...)` returns (first key attaining the maximal
value, dicts iterating in insertion order). -/
def firstMaxIdx : List ℤ → ℕ
  | [] => 0
  | [_] => 0
  | a :: b :: t =>
    let j := firstMaxIdx (b :: t)
    if a < (b :: t).getD j 0 then j + 1 else 0

/-- Embedding of `optimal_allocation` (lines 75-133): round each Neyman share, then
correct any rounding residual by adding the full difference at the first
largest-allocation stratum.  (On an empty input with a nonzero residual
Python's `max` raises; the embedding's `set`/`getD` are no-ops there —
every theorem below assumes a non-empty input.) -/
def optimal_allocation (population_proportions : List (String × ℚ)) (total_sample_size : ℕ)
    (variances : Option (List (String × ℚ))) : List (String × ℤ) :=
  let allocations := rawAllocations population_proportions total_sample_size variances
  let allocated := (allocations.map Prod.snd).sum
  if allocated = (total_sample_size : ℤ) then allocations
  else
    let idx := firstMaxIdx (allocations.map Prod.snd)
    allocations.set idx
      ((allocations.getD idx ("", 0)).1,
       (allocations.getD idx ("", 0)).2 + ((total_sample_size : ℤ) - allocated))

example :
    optimal_allocation [("A", 1/2), ("B", 3/10), ("C", 1/5)] 7 none
      = [("A", 4), ("B", 2), ("C", 1)] := by
  norm_num [optimal_allocation, rawAllocations, allocationWeights, allocationVariance,
    List.lookup, npSqrt_quarter, npRound_7_2, npRound_21_10, npRound_7_5, firstMaxIdx]

/-! ## Helper lemmas for the allocation fix-up -/

theorem firstMaxIdx_lt_length : ∀ l : List ℤ, l ≠ [] → firstMaxIdx l < l.length
  | [], h => absurd rfl h
  | [_], _ => by simp [firstMaxIdx]
  | a :: b :: t, _ => by
    have ih := firstMaxIdx_lt_length (b :: t) (by simp)
    rw [firstMaxIdx]
    split
    · simpa using Nat.succ_lt_succ ih
    · simp

theorem sum_set_getD_add : ∀ (l : List ℤ) (i : ℕ) (d : ℤ), i < l.length →
    (l.set i (l.getD i 0 + d)).sum = l.sum + d
  | [], i, _, h => by simp at h
  | _ :: _, 0, d, _ => by simp; ring
  | a :: t, i + 1, d, h => by
    have ih := sum_set_getD_add t i d (by simpa using h)
    have hset : (a :: t).set (i + 1) ((a :: t).getD (i + 1) 0 + d)
        = a :: t.set i (t.getD i 0 + d) := by
      rw [List.getD_cons_succ]
      rfl
    rw [hset, List.sum_cons, ih, List.sum_cons]
    ring

theorem snd_getD : ∀ (l : List (String × ℤ)) (i : ℕ), i < l.length →
    (l.getD i ("", 0)).2 = (l.map Prod.snd).getD i 0
  | [], i, h => by simp at h
  | _ :: _, 0, _ => by simp
  | _ :: t, i + 1, h => by simpa using snd_getD t i (by simpa using h)

theorem map_snd_set_pair (l : List (String × ℤ)) (i : ℕ) (s : String) (v : ℤ) :
    (l.set i (s, v)).map Prod.snd = (l.map Prod.snd).set i v := by
  rw [List.map_set]

theorem rawAllocations_length (pp : List (String × ℚ)) (N : ℕ)
    (variances : Option (List (String × ℚ))) :
    (rawAllocations pp N variances).length = pp.length := by
  simp [rawAllocations, allocationWeights]

/-- C1 (also the sum half of the AllocationPlan invariant): for every
non-empty input the counts returned by `optimal_allocation` sum to exactly
the requested total, the rounding residual being absorbed in full at the
first largest-allocation stratum. -/
theorem optimal_allocation_sum (pp : List (String × ℚ)) (N : ℕ)
    (variances : Option (List (String × ℚ)))
    (hne : pp ≠ []) (_hpos : ∀ r ∈ pp, 0 < r.2) :
    ((optimal_allocation pp N variances).map Prod.snd).sum = (N : ℤ) := by
  unfold optimal_allocation
  by_cases hall : ((rawAllocations pp N variances).map Prod.snd).sum = (N : ℤ)
  · rw [if_pos hall]
    exact hall
  · rw [if_neg hall]
    have hlen : (rawAllocations pp N variances).length = pp.length :=
      rawAllocations_length pp N variances
    have hmapne : (rawAllocations pp N variances).map Prod.snd ≠ [] := by
      intro hemp
      have : pp.length = 0 := by
        have := congrArg List.length hemp
        simpa [hlen] using this
      exact hne (List.length_eq_zero.mp this)
    have hi : firstMaxIdx ((rawAllocations pp N variances).map Prod.snd)
        < (rawAllocations pp N variances).length := by
      have := firstMaxIdx_lt_length _ hmapne
      simpa using this
    rw [map_snd_set_pair, snd_getD _ _ hi, sum_set_getD_add]
    · ring
    · simpa using hi

/-- Witness for C1 at a concrete input: three strata, total 7 (7 is not
evenly divisible among the rounded shares without a fix-up). -/
theorem optimal_allocation_sum_witness :
    ((optimal_allocation [("A", 1/2), ("B", 3/10), ("C", 1/5)] 7 none).map Prod.snd).sum
      = (7 : ℤ) :=
  optimal_allocation_sum [("A", 1/2), ("B", 3/10), ("C", 1/5)] 7 none (by simp)
    (by
      intro r hr
      simp only [List.mem_cons, List.not_mem_nil, or_false] at hr
      rcases hr with h | h | h <;> subst h <;> norm_num)

/-- C8: the residual fix-up CAN drive a count below zero.  With five equal
strata and `total_N = 3`, every stratum rounds `0.6` up to `1`, the residual
is `-2`, and the first stratum ends at `-1`: the non-negativity half of the
AllocationPlan invariant fails while the sum invariant still holds. -/
theorem optimal_allocation_negative_count :
    optimal_allocation [("A", 1/5), ("B", 1/5), ("C", 1/5), ("D", 1/5), ("E", 1/5)] 3 none
        = [("A", -1), ("B", 1), ("C", 1), ("D", 1), ("E", 1)] ∧
      ¬ ∀ r ∈ optimal_allocation [("A", 1/5), ("B", 1/5), ("C", 1/5), ("D", 1/5), ("E", 1/5)]
          3 none, 0 ≤ r.2 := by
  have h : optimal_allocation [("A", 1/5), ("B", 1/5), ("C", 1/5), ("D", 1/5), ("E", 1/5)] 3 none
      = [("A", -1), ("B", 1), ("C", 1), ("D", 1), ("E", 1)] := by
    norm_num [optimal_allocation, rawAllocations, allocationWeights, allocationVariance,
      List.lookup, npSqrt_quarter, npRound_3_5, firstMaxIdx]
  refine ⟨h, ?_⟩
  intro hall
  have := hall ("A", -1) (by rw [h]; simp)
  norm_num at this

/-! ## Theorems about `calculate_vwrs` -/

/-- C4: whenever the accumulated total VWRS weight is zero, the
normalised error is taken to be `1.0` and the score is exactly `0.0`. -/
theorem calculate_vwrs_zero_weight (sp pp : List (String × ℚ)) (ss : List (String × ℤ))
    (variances : Option (List (String × ℚ)))
    (h : (vwrsTotals sp pp ss variances).2 = 0) :
    calculate_vwrs sp pp ss variances = 0 := by
  rw [calculate_vwrs, h]
  norm_num

/-- Witness for C4: a benchmark whose only stratum has population
proportion `0` gives total weight `0` and score `0`. -/
theorem calculate_vwrs_zero_weight_witness :
    calculate_vwrs [] [("A", 0)] [] none = 0 :=
  calculate_vwrs_zero_weight [] [("A", 0)] [] none
    (by norm_num [vwrsTotals, vwrsWeight, seStratum, reliabilityFactor, List.lookup])

/-- C3 counterexample: on a concrete input with one measured stratum and
one stratum absent from the variance mapping, the code's score differs
from the score demanded by the spec's default-`0.25` reading, and the
absent stratum's weight is `pi * se * 1`, not `pi * se * 0.75`. -/
theorem vwrs_default_reliability_counterexample :
    vwrsWeight [("A", 1/2), ("B", 0)] [("A", 1), ("B", 0)] (some [("A", 0)]) "B" (1/2)
        ≠ 1/2 * seStratum 0 0 * (3/4) ∧
      calculate_vwrs [("A", 1/2), ("B", 0)] [("A", 1/2), ("B", 1/2)] [("A", 1), ("B", 0)]
          (some [("A", 0)])
        ≠ calculate_vwrsSpec [("A", 1/2), ("B", 0)] [("A", 1/2), ("B", 1/2)] [("A", 1), ("B", 0)]
          (some [("A", 0)]) := by
  have sBA : (("B" : String) == "A") = false := by decide
  have sBB : (("B" : String) == "B") = true := by decide
  have sAA : (("A" : String) == "A") = true := by decide
  have habs : |(1 : ℚ)/2| = 1/2 := by
    rw [abs_of_pos]
    norm_num
  constructor
  · norm_num [vwrsWeight, seStratum, reliabilityFactor, List.lookup, sBA, sBB]
  · norm_num [calculate_vwrs, calculate_vwrsSpec, vwrsTotals, vwrsTotalsSpec, vwrsWeight,
      vwrsWeightSpec, seStratum, reliabilityFactor, reliabilityFactorSpec, List.lookup,
      npSqrt_quarter, sBA, sBB, sAA, habs]

/-- C3 amended: a stratum with no entry in the variance mapping (also when
no mapping is supplied) gets reliability factor `1.0` — no default internal
variance is applied inside `calculate_vwrs`, so its weight is
`pi_i * se_i`; the `0.25` default lives only in `optimal_allocation`. -/
theorem vwrs_default_reliability_amended (variances : Option (List (String × ℚ)))
    (stratum : String) (h : variances.bind (fun vs => vs.lookup stratum) = none) :
    reliabilityFactor variances stratum = 1 ∧
      (∀ (sp : List (String × ℚ)) (ss : List (String × ℤ)) (pi_i : ℚ),
        vwrsWeight sp ss variances stratum pi_i
          = pi_i * seStratum ((sp.lookup stratum).getD 0) ((ss.lookup stratum).getD 0)) ∧
      allocationVariance variances stratum = 1/4 := by
  have hr : reliabilityFactor variances stratum = 1 := by
    cases variances with
    | none => rfl
    | some vs =>
      simp only [Option.some_bind] at h
      simp [reliabilityFactor, h]
  refine ⟨hr, ?_, ?_⟩
  · intro sp ss pi_i
    rw [vwrsWeight, hr, mul_one]
  · cases variances with
    | none => rfl
    | some vs =>
      simp only [Option.some_bind] at h
      simp [allocationVariance, h]

/-- Witness for C3's amended statement, at a mapping that contains "A" but
not "B". -/
theorem vwrs_default_reliability_amended_witness :
    reliabilityFactor (some [("A", 0)]) "B" = 1 ∧
      vwrsWeight [("A", 1/2), ("B", 0)] [("A", 1), ("B", 0)] (some [("A", 0)]) "B" (1/2)
        = 1/2 * seStratum 0 0 ∧
      allocationVariance (some [("A", 0)]) "B" = 1/4 := by
  obtain ⟨h1, h2, h3⟩ := vwrs_default_reliability_amended (some [("A", 0)]) "B"
    (by simp [List.lookup])
  refine ⟨h1, ?_, h3⟩
  simpa [List.lookup] using
    h2 [("A", 1/2), ("B", 0)] [("A", 1), ("B", 0)] (1/2)

/-! ## `calculate_gri` and `calculate_diversity_score` (gri/calculator.py) -/

/-- A stratum key: the tuple of values of the strata columns for one row. -/
abbrev Key := List String

/-- The distinct keys of a survey, in order of first appearance
(the groupby of line 30, whose ordering is irrelevant to the sums below). -/
def dedupFirst (survey : List Key) : List Key :=
  survey.foldl (fun acc k => if k ∈ acc then acc else acc ++ [k]) []

/-- The key set of the outer merge of benchmark and sample (lines 38-39):
benchmark keys first, then sample keys missing from the benchmark. -/
def mergedKeys (survey : List Key) (benchmark : List (Key × ℚ)) : List Key :=
  benchmark.map Prod.fst
    ++ (dedupFirst survey).filter (fun k => decide (k ∉ benchmark.map Prod.fst))

/-- Embedding of `calculate_gri` (lines 5-52): `0.0` on an empty survey, else
`1 - 0.5 * Σ |sample_proportion - population_proportion|` over the merged
keys, missing sides filled with `0`. -/
def calculate_gri (survey : List Key) (benchmark : List (Key × ℚ)) : ℚ :=
  if survey.length = 0 then 0
  else
    1 - (1/2) * ((mergedKeys survey benchmark).map (fun k =>
        |((survey.count k : ℚ) / (survey.length : ℚ)) - ((benchmark.lookup k).getD 0)|)).sum

/-- The dynamic relevance threshold of `calculate_diversity_score`
(line 85): `X = 1/(2N)`. -/
def liveDiversityThreshold (N : ℕ) : ℚ := 1 / (2 * (N : ℚ))

/-- The relevant benchmark rows (line 93): population proportion strictly
above the threshold (the supplied one, or `1/(2N)` by default). -/
def relevantStrata (survey : List Key) (benchmark : List (Key × ℚ))
    (population_threshold : Option ℚ) : List (Key × ℚ) :=
  benchmark.filter fun r =>
    decide (population_threshold.getD (liveDiversityThreshold survey.length) < r.2)

/-- Embedding of `calculate_diversity_score` (lines 55-115): `0.0` on an empty survey;
`1.0` when no stratum is relevant; else the fraction of relevant strata
that are represented in the sample. -/
def calculate_diversity_score (survey : List Key) (benchmark : List (Key × ℚ))
    (population_threshold : Option ℚ) : ℚ :=
  if survey.length = 0 then 0
  else if (relevantStrata survey benchmark population_threshold).length = 0 then 1
  else
    (((relevantStrata survey benchmark population_threshold).filter
        (fun r => decide (0 < survey.count r.1))).length : ℚ)
      / ((relevantStrata survey benchmark population_threshold).length : ℚ)

/-- The diversity threshold used inside the simulation engine
(gri/simulation.py line 229): `1/N`, or `0` for `N = 0`. -/
def monteCarloDiversityThreshold (sample_size : ℕ) : ℚ :=
  if 0 < sample_size then 1 / (sample_size : ℚ) else 0

/-- C5: on an empty sample (`N = 0`) both `calculate_gri` and
`calculate_diversity_score` return exactly `0.0`, for every benchmark and
every threshold argument. -/
theorem gri_and_diversity_zero_on_empty_sample (benchmark : List (Key × ℚ))
    (population_threshold : Option ℚ) :
    calculate_gri [] benchmark = 0 ∧
      calculate_diversity_score [] benchmark population_threshold = 0 := by
  constructor <;> rfl

/-- C6: on a non-empty sample, when zero benchmark strata lie strictly
above the relevance threshold (default `1/(2N)`, or the supplied one),
`calculate_diversity_score` returns exactly `1.0`. -/
theorem diversity_one_on_empty_relevant_set (survey : List Key)
    (benchmark : List (Key × ℚ)) (population_threshold : Option ℚ)
    (hne : survey.length ≠ 0)
    (hrel : (relevantStrata survey benchmark population_threshold).length = 0) :
    calculate_diversity_score survey benchmark population_threshold = 1 := by
  rw [calculate_diversity_score, if_neg hne, if_pos hrel]

/-- Witness for C6: one participant (`N = 1`, default threshold `1/2`),
one benchmark stratum of proportion `1/100 < 1/2`. -/
theorem diversity_one_on_empty_relevant_set_witness :
    calculate_diversity_score [["a"]] [(["b"], 1/100)] none = 1 :=
  diversity_one_on_empty_relevant_set [["a"]] [(["b"], 1/100)] none (by simp)
    (by norm_num [relevantStrata, liveDiversityThreshold])

/-- C7: for every `N > 0` the default live-sample relevance threshold is
`1/(2N)` while the simulation engine uses `1/N`; the two genuinely differ,
and omitting the threshold argument of `calculate_diversity_score` is the
same as passing `1/(2N)` explicitly. -/
theorem diversity_threshold_asymmetry (N : ℕ) (h : 0 < N) :
    liveDiversityThreshold N = 1 / (2 * (N : ℚ)) ∧
      monteCarloDiversityThreshold N = 1 / (N : ℚ) ∧
      liveDiversityThreshold N ≠ monteCarloDiversityThreshold N ∧
      ∀ (survey : List Key) (benchmark : List (Key × ℚ)), survey.length = N →
        calculate_diversity_score survey benchmark none
          = calculate_diversity_score survey benchmark (some (liveDiversityThreshold N)) := by
  have hQ : (0 : ℚ) < (N : ℚ) := by exact_mod_cast h
  refine ⟨rfl, ?_, ?_, ?_⟩
  · rw [monteCarloDiversityThreshold, if_pos h]
  · rw [liveDiversityThreshold, monteCarloDiversityThreshold, if_pos h]
    intro heq
    have hN0 : (N : ℚ) ≠ 0 := ne_of_gt hQ
    have h2N : 2 * (N : ℚ) ≠ 0 := by
      apply ne_of_gt
      linarith
    rw [div_eq_div_iff h2N hN0] at heq
    linarith
  · intro survey benchmark hlen
    rw [calculate_diversity_score, calculate_diversity_score]
    simp only [relevantStrata, Option.getD_some, Option.getD_none, hlen]

/-- Witness for C7 at `N = 10`: thresholds `1/20` versus `1/10`. -/
theorem diversity_threshold_asymmetry_witness :
    liveDiversityThreshold 10 = 1 / 20 ∧
      monteCarloDiversityThreshold 10 = 1 / 10 ∧
      liveDiversityThreshold 10 ≠ monteCarloDiversityThreshold 10 := by
  obtain ⟨h1, h2, h3, -⟩ := diversity_threshold_asymmetry 10 (by norm_num)
  refine ⟨?_, ?_, h3⟩
  · rw [h1]
    norm_num
  · rw [h2]
    norm_num

/-! ## `generate_optimal_sample` and `calculate_max_diversity_score`
(gri/simulation.py) -/

/-- State of the numpy global pseudorandom stream.  The stream is modelled
as a deterministic generator: the exact values it produces are irrelevant
to the properties proved below, which only depend on the stream being a
pure function of the seed and consumed in program order. -/
structure Rng where
  state : ℕ

/-- Model of `np.random.seed(s)`: the stream state becomes a function of
the seed alone. -/
def mkRng (seed : ℕ) : Rng := ⟨seed % 2147483648⟩

/-- Model of `np.random.random()`: one draw in `[0, 1)` plus the advanced
state (a linear congruential step standing in for the Mersenne twister). -/
def nextRand (g : Rng) : ℚ × Rng :=
  let s := (g.state * 1103515245 + 12345) % 2147483648
  ((s : ℚ) / 2147483648, ⟨s⟩)

/-- Model of `np.random.choice(l)`: one uniform draw turned into an index. -/
def randChoice (g : Rng) (l : List ℕ) : ℕ × Rng :=
  let ug := nextRand g
  (l.getD (⌊ug.1 * (l.length : ℚ)⌋).toNat 0, ug.2)

/-- First pass of `generate_optimal_sample` (lines 65-74): deterministic
rounded allocation for strata whose rounded ideal count is positive, one
Bernoulli draw (`counts = 1` with probability `ideal`) for the rest,
consuming the stream in stratum order. -/
def firstPass : List ℚ → Rng → List ℤ × Rng
  | [], g => ([], g)
  | ideal :: rest, g =>
    if 0 < npRound ideal then
      let pr := firstPass rest g
      (npRound ideal :: pr.1, pr.2)
    else
      let ug := nextRand g
      let pr := firstPass rest ug.2
      ((if ug.1 < ideal then 1 else 0) :: pr.1, pr.2)

/-- Residual-fixing loop of lines 90-103: `|difference|` rounds of picking
a uniformly random adjustable stratum and moving its count by one,
dropping a stratum from the adjustable set when a decrement empties it. -/
def adjustLoop : ℕ → List ℤ → List ℕ → Bool → Rng → List ℤ × Rng
  | 0, counts, _, _, g => (counts, g)
  | k + 1, counts, adjustable, isAdd, g =>
    if adjustable.isEmpty then (counts, g)
    else
      let ig := randChoice g adjustable
      if isAdd then
        adjustLoop k (counts.set ig.1 (counts.getD ig.1 0 + 1)) adjustable isAdd ig.2
      else if 0 < counts.getD ig.1 0 then
        adjustLoop k (counts.set ig.1 (counts.getD ig.1 0 - 1))
          (if (counts.set ig.1 (counts.getD ig.1 0 - 1)).getD ig.1 0 = 0
           then adjustable.filter (fun j => decide (j ≠ ig.1)) else adjustable)
          isAdd ig.2
      else
        adjustLoop k counts adjustable isAdd ig.2

/-- Embedding of `generate_optimal_sample` (lines 17-105).  The ambient stream state
models numpy's global generator at call time; `np.random.seed` replaces it
when a seed is supplied (line 49-50).  Returns the counts together with
the stream state the call leaves behind. -/
def generate_optimal_sample (true_proportions : List ℚ) (sample_size : ℕ)
    (random_seed : Option ℕ) (ambient : Rng) : List ℤ × Rng :=
  let g0 := match random_seed with
    | some s => mkRng s
    | none => ambient
  let prop_sum := true_proportions.sum
  let props := if 1/1000000 < |prop_sum - 1|
    then true_proportions.map (fun p => p / prop_sum) else true_proportions
  let fp := firstPass (props.map (fun p => p * (sample_size : ℚ))) g0
  let difference : ℤ := (sample_size : ℤ) - fp.1.sum
  if difference = 0 then fp
  else
    adjustLoop difference.natAbs fp.1
      (if difference < 0
       then (List.range fp.1.length).filter (fun i => decide (0 < fp.1.getD i 0))
       else List.range fp.1.length)
      (decide (0 < difference)) fp.2

/-- C2: `generate_optimal_sample` is fully deterministic given
`(proportions, N, seed)`: with a seed supplied, the result (counts and
final stream state alike) does not depend on the ambient pseudorandom
state, because the stream is re-seeded once per call and consumed in a
fixed order. -/
theorem generate_optimal_sample_deterministic (true_proportions : List ℚ)
    (sample_size : ℕ) (seed : ℕ) (ambient₁ ambient₂ : Rng) :
    generate_optimal_sample true_proportions sample_size (some seed) ambient₁
      = generate_optimal_sample true_proportions sample_size (some seed) ambient₂ := rfl

/-- The threshold logic of `calculate_max_diversity_score`
(gri/simulation.py lines 166-169): an explicit threshold wins; otherwise
`1/sample_size` (the sample size defaulting to the total of the counts),
or `0` for a non-positive size. -/
def maxDiversityThreshold (sample_counts : List ℤ) (threshold : Option ℚ)
    (sample_size : Option ℤ) : ℚ :=
  match threshold with
  | some t => t
  | none =>
    match sample_size with
    | some s => if 0 < s then 1 / (s : ℚ) else 0
    | none => if 0 < sample_counts.sum then 1 / (sample_counts.sum : ℚ) else 0

/-- Number of relevant strata (line 172): proportions strictly above the
threshold. -/
def relevantCount (true_proportions : List ℚ) (thr : ℚ) : ℕ :=
  (true_proportions.filter (fun p => decide (thr < p))).length

/-- Embedding of `calculate_max_diversity_score` (lines 141-181): `0.0` when no
stratum is relevant, else the fraction of relevant strata holding at
least one sample. -/
def calculate_max_diversity_score (true_proportions : List ℚ) (sample_counts : List ℤ)
    (threshold : Option ℚ) (sample_size : Option ℤ) : ℚ :=
  if relevantCount true_proportions (maxDiversityThreshold sample_counts threshold sample_size)
      = 0 then 0
  else
    (((sample_counts.zip true_proportions).filter (fun cp =>
        decide (0 < cp.1) &&
          decide (maxDiversityThreshold sample_counts threshold sample_size < cp.2))).length : ℚ)
      / (relevantCount true_proportions
          (maxDiversityThreshold sample_counts threshold sample_size) : ℚ)

/-- C10: on an empty relevant set (no proportion strictly above the given
threshold) the per-trial simulation formula `calculate_max_diversity_score`
returns exactly `0.0` — the opposite convention to
`calculate_diversity_score`'s vacuous `1.0`. -/
theorem max_diversity_zero_on_empty_relevant_set (true_proportions : List ℚ)
    (sample_counts : List ℤ) (t : ℚ) (sample_size : Option ℤ)
    (h : relevantCount true_proportions t = 0) :
    calculate_max_diversity_score true_proportions sample_counts (some t) sample_size = 0 := by
  rw [calculate_max_diversity_score]
  have ht : maxDiversityThreshold sample_counts (some t) sample_size = t := rfl
  rw [ht, if_pos h]

/-- Witness for C10: one stratum of proportion `1/10`, threshold `1/2`,
five samples — no relevant stratum, score `0`. -/
theorem max_diversity_zero_on_empty_relevant_set_witness :
    calculate_max_diversity_score [1/10] [5] (some (1/2)) none = 0 :=
  max_diversity_zero_on_empty_relevant_set [1/10] [5] (1/2) none
    (by norm_num [relevantCount])

/-! ## `simplify_benchmark` (gri/benchmark_simplifier.py lines 14-88) -/

/-- Insert one benchmark row into a proportion-descending list (model of
`sort_values(..., ascending=False)`; ties keep input order, which is
irrelevant to the sums below). -/
def insertDesc (x : String × ℚ) : List (String × ℚ) → List (String × ℚ)
  | [] => [x]
  | y :: t => if y.2 < x.2 then x :: y :: t else y :: insertDesc x t

/-- Sort benchmark rows by proportion, descending (line 48). -/
def sortDesc (l : List (String × ℚ)) : List (String × ℚ) :=
  l.foldr insertDesc []

/-- Running totals of a list (model of `cumsum`, line 59). -/
def cumsums (acc : ℚ) : List ℚ → List ℚ
  | [] => []
  | x :: t => (acc + x) :: cumsums (acc + x) t

/-- How many leading sorted rows are kept (lines 51-60): `top_n` wins,
then `threshold` (count of rows with proportion `≥ t`), else the smallest
prefix whose cumulative proportion reaches `min_coverage`. -/
def keepCount (df : List (String × ℚ)) (threshold : Option ℚ) (top_n : Option ℕ)
    (min_coverage : ℚ) : ℕ :=
  match top_n with
  | some n => min n df.length
  | none =>
    match threshold with
    | some t => (df.filter (fun r => decide (t ≤ r.2))).length
    | none => ((cumsums 0 (df.map Prod.snd)).filter (fun c => decide (c < min_coverage))).length + 1

/-- Embedding of `simplify_benchmark` (lines 14-88): sort descending, keep a prefix,
and merge the dropped rows into one `Others` row carrying their summed
proportion — omitted when that sum is not positive (lines 67-86). -/
def simplify_benchmark (benchmark : List (String × ℚ)) (threshold : Option ℚ)
    (top_n : Option ℕ) (min_coverage : ℚ) (others_label : String) : List (String × ℚ) :=
  let df := sortDesc benchmark
  let k := keepCount df threshold top_n min_coverage
  let others_proportion := ((df.drop k).map Prod.snd).sum
  if 0 < others_proportion
  then df.take k ++ [(others_label, others_proportion)]
  else df.take k

theorem insertDesc_perm (x : String × ℚ) : ∀ l : List (String × ℚ),
    (insertDesc x l).Perm (x :: l)
  | [] => List.Perm.refl _
  | y :: t => by
    rw [insertDesc]
    split
    · exact List.Perm.refl _
    · exact ((insertDesc_perm x t).cons y).trans (List.Perm.swap x y t)

theorem sortDesc_perm : ∀ l : List (String × ℚ), (sortDesc l).Perm l
  | [] => List.Perm.refl _
  | x :: t => by
    rw [sortDesc, List.foldr_cons]
    exact (insertDesc_perm x (List.foldr insertDesc [] t)).trans
      ((sortDesc_perm t).cons x)

/-- C9: `simplify_benchmark` preserves total population mass under every
policy (for proportion-nonnegative benchmarks, the only ones the data
model admits): the output proportions sum to the input total, the dropped
strata being replaced by one `Others` stratum carrying exactly their
summed proportion (omitted when that sum is `0`).  In particular
`top_n = 1` on `[A: 0.5, B: 0.3, C: 0.2]` yields `[A: 0.5, Others: 0.5]`. -/
theorem simplify_benchmark_preserves_mass :
    (∀ (benchmark : List (String × ℚ)) (threshold : Option ℚ) (top_n : Option ℕ)
      (min_coverage : ℚ) (others_label : String),
      (∀ r ∈ benchmark, 0 ≤ r.2) →
      ((simplify_benchmark benchmark threshold top_n min_coverage others_label).map
          Prod.snd).sum
        = (benchmark.map Prod.snd).sum) ∧
    simplify_benchmark [("A", 1/2), ("B", 3/10), ("C", 1/5)] none (some 1) (4/5) "Others"
      = [("A", 1/2), ("Others", 1/2)] := by
  constructor
  · intro benchmark threshold top_n min_coverage others_label hnn
    simp only [simplify_benchmark]
    have hperm : ((sortDesc benchmark).map Prod.snd).Perm (benchmark.map Prod.snd) :=
      (sortDesc_perm benchmark).map Prod.snd
    have hsum : ((sortDesc benchmark).map Prod.snd).sum = (benchmark.map Prod.snd).sum :=
      hperm.sum_eq
    set df := sortDesc benchmark with hdf
    set k := keepCount df threshold top_n min_coverage with hk
    have hsplit : ((df.take k).map Prod.snd).sum + ((df.drop k).map Prod.snd).sum
        = (benchmark.map Prod.snd).sum := by
      rw [← hsum, ← List.sum_append, ← List.map_append, List.take_append_drop]
    have hdropnn : 0 ≤ ((df.drop k).map Prod.snd).sum := by
      apply List.sum_nonneg
      intro x hx
      obtain ⟨r, hr, hrx⟩ := List.mem_map.mp hx
      have hrdf : r ∈ df := List.mem_of_mem_drop hr
      have hrb : r ∈ benchmark := (sortDesc_perm benchmark).subset hrdf
      rw [← hrx]
      exact hnn r hrb
    by_cases hpos : 0 < ((df.drop k).map Prod.snd).sum
    · rw [if_pos hpos, List.map_append, List.sum_append]
      simpa using hsplit
    · rw [if_neg hpos]
      have hzero : ((df.drop k).map Prod.snd).sum = 0 :=
        le_antisymm (not_lt.mp hpos) hdropnn
      rw [← hsplit, hzero, add_zero]
  · norm_num [simplify_benchmark, sortDesc, insertDesc, keepCount, cumsums]

/-- Witness for C9's mass-preservation half, applied at the scenario-C
input. -/
theorem simplify_benchmark_preserves_mass_witness :
    ((simplify_benchmark [("A", 1/2), ("B", 3/10), ("C", 1/5)] none (some 1) (4/5)
        "Others").map Prod.snd).sum
      = (([("A", (1:ℚ)/2), ("B", 3/10), ("C", 1/5)]).map Prod.snd).sum :=
  simplify_benchmark_preserves_mass.1 [("A", 1/2), ("B", 3/10), ("C", 1/5)] none (some 1)
    (4/5) "Others"
    (by
      intro r hr
      simp only [List.mem_cons, List.not_mem_nil, or_false] at hr
      rcases hr with h | h | h <;> subst h <;> norm_num)

end GRI
